import Mathlib

/-!
Verification of the skriptendruck order-processing core against its
specification.  The Python sources under `src/skriptendruck` are embedded
shallowly: `pypdf` documents become an inductive `PdfFile`, the filesystem
becomes a partial map from paths to files, fallible external operations
(library imports, pixmap saves, output writes) become explicit outcome
parameters, and each service method becomes a total Lean function with the
same control flow as the Python body.
-/

namespace Skriptendruck

/-- A single page of a PDF document.  `mk n` is an ordinary content page
(identified abstractly); `blankA4` is the blank A4 page that
`PdfWriter.add_blank_page(width=A4[0], height=A4[1])` appends (the concrete
A4 float dimensions are irrelevant to page sequencing and are abstracted). -/
inductive PdfPage
  | mk (data : Nat)
  | blankA4
deriving DecidableEq, Repr

/-- A file on disk as seen by `pypdf.PdfReader`:
`corrupt cause` — opening raises an exception with message `cause`;
`encrypted ps` — opens, `is_encrypted` is true;
`readable ps` — opens normally with page list `ps`;
`truncated ps` — an interrupted write left only a prefix `ps` of the
intended pages; such a file is not a well-formed PDF, so reading it raises. -/
inductive PdfFile
  | corrupt (cause : String)
  | encrypted (pages : List PdfPage)
  | readable (pages : List PdfPage)
  | truncated (pages : List PdfPage)
deriving DecidableEq, Repr

/-- The filesystem: a map from path strings to the file stored there. -/
def FS : Type := String → Option PdfFile

/-- Store file `e` at path `p` (what a completed `open(p, "wb")` write does). -/
def FS.set (fs : FS) (p : String) (e : PdfFile) : FS :=
  fun q => if q = p then some e else fs q

/-- Embedding of `PdfService.get_page_count` (pdf_service.py:22-46).  Opening the file at
the path yields the `Option PdfFile`; a missing or corrupt or truncated file
raises inside the `try`, and the `except Exception` branch logs the error and
returns `(None, False)`.  An encrypted document returns `(None, True)`; a
readable one returns `(len(reader.pages), False)`. -/
def get_page_count : Option PdfFile → Option Nat × Bool
  | some (PdfFile.encrypted _) => (none, true)
  | some (PdfFile.readable ps) => (some ps.length, false)
  | some (PdfFile.corrupt _) => (none, false)
  | some (PdfFile.truncated _) => (none, false)
  | none => (none, false)

/-- Reading a list of pages out of a file the way the merge loop
`for page in PdfReader(path).pages` does: only a readable, unencrypted
document yields its pages; everything else raises (modelled as `none`). -/
def readPages : Option PdfFile → Option (List PdfPage)
  | some (PdfFile.readable ps) => some ps
  | _ => none

/-- Outcome of the final `with open(output_path, "wb") as f: writer.write(f)`
block: either the write completes, or it raises after `k` pages worth of the
document have reached the disk (disk full, I/O error, …).  `open(..., "wb")`
creates/truncates the file first, so a failed write still leaves a file. -/
inductive WriteOutcome
  | ok
  | failAfter (k : Nat)
deriving DecidableEq, Repr

/-- Embedding of `PdfService.merge_pdfs` (pdf_service.py:307-354).  Reads all coversheet
pages, optionally appends one blank A4 page, reads all document pages, then
opens `output_path` and writes the combined document.  Any exception is
caught and `False` is returned.  Note that the write targets `output_path`
directly — there is no temporary file and no rename — so a write that fails
midway leaves a truncated file at `output_path`. -/
def merge_pdfs (fs : FS) (coversheet_path document_path output_path : String)
    (add_empty_page : Bool) (w : WriteOutcome) : Bool × FS :=
  match readPages (fs coversheet_path) with
  | none => (false, fs)
  | some csPages =>
    match readPages (fs document_path) with
    | none => (false, fs)
    | some docPages =>
      let pages := csPages
        ++ (if add_empty_page then [PdfPage.blankA4] else [])
        ++ docPages
      match w with
      | WriteOutcome.ok => (true, fs.set output_path (PdfFile.readable pages))
      | WriteOutcome.failAfter k =>
          (false, fs.set output_path (PdfFile.truncated (pages.take k)))

/-- Color mode of an order.  Modelled from the spec: `color_mode ∈ {bw,
color}` (models.py is not under src/); pdf_service.py:195 compares
`pc.color_mode.value == "color"`. -/
inductive ColorMode
  | bw
  | color
deriving DecidableEq, Repr

/-- The enum value string, as used by `pc.color_mode.value`. -/
def ColorMode.value : ColorMode → String
  | ColorMode.bw => "bw"
  | ColorMode.color => "color"

/-- Binding type of an order.  Modelled from the spec: `binding_type ∈
{none, folder, ring}`; pdf_service.py:198-204 compares
`pc.binding_type.value` against `"none"` and `"folder"`. -/
inductive BindingType
  | noBinding
  | folder
  | ring
deriving DecidableEq, Repr

/-- The enum value string, as used by `pc.binding_type.value`. -/
def BindingType.value : BindingType → String
  | BindingType.noBinding => "none"
  | BindingType.folder => "folder"
  | BindingType.ring => "ring"

/-- Modelled from the spec: models.py is not under src/.  "PriceCalculation —
immutable value: `color_mode`, `binding_type`, `binding_size_mm` (optional),
`pages_price`, `binding_price`, `total_price`, `deposit` (fixed constant),
`price_after_deposit` = max(0, total_price − deposit)."  Monetary amounts are
integer cents. -/
structure PriceCalculation where
  color_mode : ColorMode
  binding_type : BindingType
  binding_size_mm : Option Nat
  pages_price : Int
  binding_price : Int
  deposit : Int
deriving DecidableEq, Repr

/-- Modelled from the spec: `total_price = pages_price + binding_price`. -/
def PriceCalculation.total_price (c : PriceCalculation) : Int :=
  c.pages_price + c.binding_price

/-- Modelled from the spec: `price_after_deposit` = max(0, total_price −
deposit), "clamped at zero — the deposit must never produce a negative
displayed balance". -/
def PriceCalculation.price_after_deposit (c : PriceCalculation) : Int :=
  max 0 (c.total_price - c.deposit)

/-- A resolved person, per the spec data model: `username`, `full_name`,
`faculty` (optional), `blocked`.  pdf_service.py uses `username`,
`full_name` and `faculty`. -/
structure Identity where
  username : String
  full_name : String
  faculty : Option String
  blocked : Bool
deriving DecidableEq, Repr

/-- Terminal and intermediate order states, named after the spec's state
machine and router table. -/
inductive OrderStatus
  | discovered
  | processed
  | error_invalid_filename
  | error_user_not_found
  | error_blocked
  | error_too_few_pages
  | error_too_many_pages
  | error_password_protected
  | error_other
  | manual_review
deriving DecidableEq, Repr

/-- The enum value string of a status, as read by `order.status.value`.
pdf_service.py:270 compares it against the literal
`"error_invalid_filename"`; the remaining strings are the snake_case status
names (modelled from the spec, models.py is not under src/). -/
def OrderStatus.value : OrderStatus → String
  | OrderStatus.discovered => "discovered"
  | OrderStatus.processed => "processed"
  | OrderStatus.error_invalid_filename => "error_invalid_filename"
  | OrderStatus.error_user_not_found => "error_user_not_found"
  | OrderStatus.error_blocked => "error_blocked"
  | OrderStatus.error_too_few_pages => "error_too_few_pages"
  | OrderStatus.error_too_many_pages => "error_too_many_pages"
  | OrderStatus.error_password_protected => "error_password_protected"
  | OrderStatus.error_other => "error_other"
  | OrderStatus.manual_review => "manual_review"

/-- The fields of an `Order` that `PdfService.create_coversheet` reads.
`created_at` carries the already-formatted timestamp string (only
`strftime` output is used). -/
structure Order where
  order_id : Nat
  filename : String
  created_at : String
  parsed_username : Option String
  parsed_name : Option String
  page_count : Option Nat
  user : Option Identity
  price_calculation : Option PriceCalculation
  status : OrderStatus
deriving DecidableEq, Repr

/-- Python truthiness of an optional string (`if order.parsed_name:`):
`None` and the empty string are falsy. -/
def truthyStr : Option String → Bool
  | some s => !s.isEmpty
  | none => false

/-- The prominent name on the cover sheet (pdf_service.py:133-140):
`order.user.full_name` when a user object is attached (any object is
truthy, even one with an empty `full_name`), else `order.parsed_name` when
that string is truthy, else `order.parsed_username` when truthy, else the
literal `"Unbekannt"`. -/
def coversheet_name_text (o : Order) : String :=
  match o.user with
  | some u => u.full_name
  | none =>
    match o.parsed_name with
    | some s =>
      if !s.isEmpty then s
      else
        match o.parsed_username with
        | some t => if !t.isEmpty then t else "Unbekannt"
        | none => "Unbekannt"
    | none =>
      match o.parsed_username with
      | some t => if !t.isEmpty then t else "Unbekannt"
      | none => "Unbekannt"

/-- One drawing operation on the reportlab canvas.  Purely decorative
color/line-width changes are not modelled; the red invalid-filename block of
pdf_service.py:270-280 is modelled as a single `warnBanner` op carrying its
three text lines. -/
inductive DrawOp
  | text (s : String)
  | fieldOp (label value : String)
  | sepLine
  | rect
  | image (path : String)
  | warnBanner (l1 l2 l3 : String)
deriving DecidableEq, Repr

/-- Modelled from the spec: models.py is not under src/, so the
`*_formatted` presentation properties of `PriceCalculation` are missing;
the spec says currency strings are "a presentation concern derived from
these numeric fields".  We print the cent amount directly. -/
def euro_fmt (cents : Int) : String :=
  toString cents ++ " ct"

/-- The `RZ-Kennung` line under the name (pdf_service.py:147-153). -/
def user_info_line (u : Identity) : String :=
  match u.faculty with
  | some f => "RZ-Kennung: " ++ u.username ++ "   •   " ++ "Fakultät: " ++ f
  | none => "RZ-Kennung: " ++ u.username

/-- The pricing block (pdf_service.py:192-224): print mode, binding line
(format depends on the binding type), total, amount due after deposit, and
the deposit note. -/
def price_ops (pc : PriceCalculation) : List DrawOp :=
  let color_text := if pc.color_mode.value = "color" then "Farbe" else "Schwarz-Weiß"
  let binding_text :=
    if pc.binding_type.value = "none" then "Ohne Bindung"
    else if pc.binding_type.value = "folder" then
      "Schnellhefter (" ++ euro_fmt pc.binding_price ++ ")"
    else
      let size_label :=
        match pc.binding_size_mm with
        | some n => if n ≠ 0 then " – " ++ toString n ++ " mm" else ""
        | none => ""
      "Ringbindung (" ++ euro_fmt pc.binding_price ++ ")" ++ size_label
  [DrawOp.fieldOp "Druck:" (color_text ++ " (" ++ euro_fmt pc.pages_price ++ ")"),
   DrawOp.fieldOp "Bindung:" binding_text,
   DrawOp.fieldOp "Gesamtpreis:" (euro_fmt pc.total_price),
   DrawOp.fieldOp "Zu zahlen:" (euro_fmt pc.price_after_deposit),
   DrawOp.text "(abzgl. 1,00 € Anzahlung)"]

/-- The thumbnail column (pdf_service.py:229-262): label, frame and the
image itself, drawn only when a thumbnail path exists. -/
def thumbnail_ops (p : String) : List DrawOp :=
  [DrawOp.text "Vorschau:", DrawOp.rect, DrawOp.image p]

/-- The full drawing sequence of `create_coversheet` given the thumbnail
path the renderer returned and whether embedding the image succeeds
(`ImageReader` failing inside the inner `try` draws nothing and is
swallowed, pdf_service.py:230-265). -/
def coversheet_ops (o : Order) (thumb : Option String) (draw_image_ok : Bool) :
    List DrawOp :=
  [DrawOp.text "Fachschaft Maschinenbau – Skriptendruck",
   DrawOp.text (coversheet_name_text o)]
  ++ (match o.user with
      | some u => [DrawOp.text (user_info_line u)]
      | none => [])
  ++ [DrawOp.sepLine,
      DrawOp.fieldOp "Auftrags-ID:" ("#" ++ toString o.order_id),
      DrawOp.fieldOp "Datum:" o.created_at,
      DrawOp.fieldOp "Dateiname:" o.filename]
  ++ (match o.page_count with
      | some n => if n ≠ 0 then [DrawOp.fieldOp "Seitenzahl:" (toString n)] else []
      | none => [])
  ++ (match o.price_calculation with
      | some pc => price_ops pc
      | none => [])
  ++ (match thumb with
      | some p => if draw_image_ok then thumbnail_ops p else []
      | none => [])
  ++ (if o.status.value = "error_invalid_filename" then
        [DrawOp.warnBanner "ACHTUNG: Dateiname nicht korrekt!"
          "Bitte nächstes Mal richtig benennen:"
          "RZ-Kennung_sw/farbig_mb/ob/sh_001.pdf"]
      else [])
  ++ [DrawOp.text "Fachschaft Maschinenbau – Hochschule Regensburg",
      DrawOp.text ("Auftrag #" ++ toString o.order_id)]

/-- Where `_render_page_thumbnail` (pdf_service.py:48-89) can fail:
`importError` — PyMuPDF missing; `openError` — `fitz.open` raises;
`emptyDoc` — the document has zero pages; `pixmapError` — `get_pixmap`
raises; `tmpCreateError` — creating the temporary file raises;
`saveError` — `pix.save(tmp_path)` raises AFTER the temporary file was
created; `ok` — everything succeeds. -/
inductive ThumbFault
  | importError
  | openError
  | emptyDoc
  | pixmapError
  | tmpCreateError
  | saveError
  | ok
deriving DecidableEq, Repr

/-- Embedding of `PdfService._render_page_thumbnail` (pdf_service.py:48-89).  Returns the path handed back to
the caller (all exceptions are caught and yield `none`) paired with whether
a temporary PNG file exists on disk after the call.  In the `saveError`
case the temp file was already created with `delete=False` but the except
handler returns `None` without unlinking it. -/
def render_page_thumbnail (f : ThumbFault) (tmp_name : String) :
    Option String × Bool :=
  match f with
  | ThumbFault.importError => (none, false)
  | ThumbFault.openError => (none, false)
  | ThumbFault.emptyDoc => (none, false)
  | ThumbFault.pixmapError => (none, false)
  | ThumbFault.tmpCreateError => (none, false)
  | ThumbFault.saveError => (none, true)
  | ThumbFault.ok => (some tmp_name, true)

/-- The environment a `create_coversheet` call runs in: whether creating
the output directory succeeds, whether `order.filepath` is set and exists,
how the thumbnail renderer behaves, whether `ImageReader` on the thumbnail
succeeds, and whether drawing plus `c.save()` succeed. -/
structure CoversheetEnv where
  mkdir_ok : Bool
  filepath_exists : Bool
  thumb_fault : ThumbFault
  draw_image_ok : Bool
  save_ok : Bool
deriving DecidableEq, Repr

/-- Result of `create_coversheet`: the returned Bool, the drawing sequence
of the written cover sheet (when it was written), and whether a temporary
thumbnail file is still on disk after the call returned. -/
structure CoversheetResult where
  ok : Bool
  output : Option (List DrawOp)
  temp_thumbnail_left : Bool
deriving DecidableEq, Repr

/-- Embedding of `PdfService.create_coversheet` (pdf_service.py:91-305).  Mirrors the
`try/except/finally` control flow: a `mkdir` failure aborts before any
thumbnail is rendered; the thumbnail is rendered only when the source file
exists; any drawing/save failure is caught and returns `False`; the
`finally` block unlinks the temporary thumbnail file — but only via the
returned `thumbnail_path`, so a temp file the renderer created without
returning it (its `pix.save` failed) is never deleted. -/
def create_coversheet (o : Order) (env : CoversheetEnv) (tmp_name : String) :
    CoversheetResult :=
  if env.mkdir_ok then
    let thumb :=
      if env.filepath_exists then render_page_thumbnail env.thumb_fault tmp_name
      else (none, false)
    let leftover := thumb.2 && thumb.1.isNone
    let ops := coversheet_ops o thumb.1 env.draw_image_ok
    if env.save_ok then
      { ok := true, output := some ops, temp_thumbnail_left := leftover }
    else
      { ok := false, output := none, temp_thumbnail_left := leftover }
  else
    { ok := false, output := none, temp_thumbnail_left := false }

/-- Does a drawing sequence contain an embedded image? -/
def is_image_op : DrawOp → Bool
  | DrawOp.image _ => true
  | _ => false

def has_image_op (l : List DrawOp) : Bool :=
  l.any is_image_op

/-- Does a drawing sequence contain the invalid-filename warning banner? -/
def is_warn_banner : DrawOp → Bool
  | DrawOp.warnBanner _ _ _ => true
  | _ => false

def has_warn_banner (l : List DrawOp) : Bool :=
  l.any is_warn_banner

/-- A handler attached to a `logging.Logger` (config/logging.py):
`richHandler`/`streamHandler` are the two possible console handlers,
`fileHandler` the optional file handler (always at DEBUG), `nullHandler`
the guard added to the root logger. -/
inductive LogHandler
  | richHandler (level : Nat)
  | streamHandler (level : Nat)
  | fileHandler (path : String) (level : Nat)
  | nullHandler
deriving DecidableEq, Repr

/-- The mutable state of one `logging.Logger`. -/
structure LoggerState where
  handlers : List LogHandler
  level : Nat
  propagate : Bool
deriving DecidableEq, Repr

/-- The logging state `setup_logging` touches: the `"skriptendruck"`
application logger, the root logger, and the module-level
`_logging_configured` flag. -/
structure LoggingState where
  app : LoggerState
  root : LoggerState
  configured : Bool
deriving DecidableEq, Repr

/-- Embedding of `getattr(logging, level.upper(), logging.INFO)` with the stdlib numeric
levels; an unknown name falls back to INFO (20). -/
def log_level_of (s : String) : Nat :=
  if s.toUpper = "DEBUG" then 10
  else if s.toUpper = "INFO" then 20
  else if s.toUpper = "WARNING" then 30
  else if s.toUpper = "ERROR" then 40
  else if s.toUpper = "CRITICAL" then 50
  else 20

/-- Embedding of `setup_logging` (config/logging.py:14-87).  Clears ALL handlers of the
application logger, sets its level, disables propagation, adds exactly one
console handler (Rich or plain stream), adds one file handler when a log
file is given, adds a `NullHandler` to the root logger if it has none, sets
the root level to WARNING, and marks logging as configured. -/
def setup_logging (st : LoggingState) (level : String) (log_file : Option String)
    (use_rich : Bool) : LoggingState :=
  let lvl := log_level_of level
  let console_handler :=
    if use_rich then LogHandler.richHandler lvl else LogHandler.streamHandler lvl
  let app_handlers :=
    [console_handler]
    ++ (match log_file with
        | some f => [LogHandler.fileHandler f 10]
        | none => [])
  { app := { handlers := app_handlers, level := lvl, propagate := false },
    root :=
      { handlers :=
          if st.root.handlers.isEmpty then [LogHandler.nullHandler]
          else st.root.handlers,
        level := 30,
        propagate := st.root.propagate },
    configured := true }

/-- Is a handler one of the two console handler kinds? -/
def is_console_handler : LogHandler → Bool
  | LogHandler.richHandler _ => true
  | LogHandler.streamHandler _ => true
  | _ => false

/-- Is a handler a file handler? -/
def is_file_handler : LogHandler → Bool
  | LogHandler.fileHandler _ _ => true
  | _ => false

/-! Concrete objects used to evaluate the embedded services. -/

/-- A small concrete filesystem: a one-page cover sheet and a two-page
source document. -/
def fs_demo : FS := fun p =>
  if p = "cover.pdf" then some (PdfFile.readable [PdfPage.mk 0])
  else if p = "doc.pdf" then some (PdfFile.readable [PdfPage.mk 1, PdfPage.mk 2])
  else none

/-- A fully populated, successfully processed order. -/
def order_demo : Order :=
  { order_id := 7
    filename := "ab12345_bw_ring_8_001.pdf"
    created_at := "01.10.2025 12:00"
    parsed_username := some "ab12345"
    parsed_name := some "Alice Example"
    page_count := some 42
    user := some { username := "ab12345", full_name := "Alice Example",
                   faculty := some "M", blocked := false }
    price_calculation := some { color_mode := ColorMode.bw,
                                binding_type := BindingType.ring,
                                binding_size_mm := some 8,
                                pages_price := 210, binding_price := 150,
                                deposit := 100 }
    status := OrderStatus.processed }

/-- An order whose filename failed to parse. -/
def order_invalid_demo : Order :=
  { order_id := 8
    filename := "lecture-notes.pdf"
    created_at := "01.10.2025 12:05"
    parsed_username := none
    parsed_name := none
    page_count := some 10
    user := none
    price_calculation := none
    status := OrderStatus.error_invalid_filename }

/-- An order carrying a resolved identity whose `full_name` is empty. -/
def order_empty_fullname : Order :=
  { order_id := 9
    filename := "ab12345_bw_sh_001.pdf"
    created_at := "01.10.2025 12:10"
    parsed_username := some "ab12345"
    parsed_name := some "Max Mustermann"
    page_count := none
    user := some { username := "ab12345", full_name := "", faculty := none,
                   blocked := false }
    price_calculation := none
    status := OrderStatus.processed }

/-- Environment in which the thumbnail renderer creates its temporary PNG
and then fails in `pix.save`, while everything else succeeds. -/
def env_save_fail_demo : CoversheetEnv :=
  { mkdir_ok := true, filepath_exists := true,
    thumb_fault := ThumbFault.saveError, draw_image_ok := true,
    save_ok := true }

/-- Environment in which PyMuPDF is not installed but everything else
succeeds. -/
def env_no_fitz_demo : CoversheetEnv :=
  { mkdir_ok := true, filepath_exists := true,
    thumb_fault := ThumbFault.importError, draw_image_ok := true,
    save_ok := true }

/-! Theorems settling the claims. -/

/-- C1: the claim says a failed `merge_pdfs` leaves no partial output at
`outputPath` because the merge writes to a temporary location and renames on
success.  The code writes to `outputPath` directly, so a write that fails
midway leaves a truncated file there: with a readable cover sheet and
document and a write that dies after one page, the call returns `False`,
yet the destination — previously empty — now holds a truncated document. -/
theorem C1_failed_merge_leaves_truncated_output :
    (merge_pdfs fs_demo "cover.pdf" "doc.pdf" "out.pdf" false
        (WriteOutcome.failAfter 1)).1 = false ∧
    (merge_pdfs fs_demo "cover.pdf" "doc.pdf" "out.pdf" false
        (WriteOutcome.failAfter 1)).2 "out.pdf" =
      some (PdfFile.truncated [PdfPage.mk 0]) ∧
    fs_demo "out.pdf" = none := by
  decide

/-- C2: `get_page_count` returns `encrypted = true` with no page count for
every encrypted document, and the exact page count with
`encrypted = false` for every readable unencrypted document. -/
theorem C2_page_count_encrypted_and_readable :
    (∀ ps : List PdfPage,
      get_page_count (some (PdfFile.encrypted ps)) = (none, true)) ∧
    (∀ ps : List PdfPage,
      get_page_count (some (PdfFile.readable ps)) = (some ps.length, false)) :=
  ⟨fun _ => rfl, fun _ => rfl⟩

/-- C3 counterexample: the claim says a corrupt PDF fails with a `ReadError`
result carrying the underlying cause.  The code catches every exception and
returns the plain pair `(None, False)`: two corrupt files with different
underlying causes produce identical results, so no cause is carried. -/
theorem C3_counterexample_cause_not_carried :
    get_page_count (some (PdfFile.corrupt "startxref not found")) =
      get_page_count (some (PdfFile.corrupt "EOF marker missing")) ∧
    get_page_count (some (PdfFile.corrupt "startxref not found")) =
      (none, false) :=
  ⟨rfl, rfl⟩

/-- C3 (amended): every corrupt/unreadable PDF yields `(None, False)` — no
page count and not flagged encrypted — which is distinguishable from the
encrypted outcome and from every successful page count; the underlying
cause is only logged, not returned. -/
theorem C3_corrupt_outcome_distinguishable (cause : String) :
    get_page_count (some (PdfFile.corrupt cause)) = (none, false) ∧
    (∀ ps : List PdfPage,
      get_page_count (some (PdfFile.corrupt cause)) ≠
        get_page_count (some (PdfFile.encrypted ps))) ∧
    (∀ ps : List PdfPage,
      get_page_count (some (PdfFile.corrupt cause)) ≠
        get_page_count (some (PdfFile.readable ps))) := by
  refine ⟨rfl, ?_, ?_⟩ <;> intro ps h <;> simp [get_page_count] at h

theorem C3_corrupt_outcome_distinguishable_witness :
    get_page_count (some (PdfFile.corrupt "bad xref")) = (none, false) ∧
    get_page_count (some (PdfFile.corrupt "bad xref")) ≠
      get_page_count (some (PdfFile.encrypted [PdfPage.mk 0])) ∧
    get_page_count (some (PdfFile.corrupt "bad xref")) ≠
      get_page_count (some (PdfFile.readable [PdfPage.mk 0])) :=
  ⟨(C3_corrupt_outcome_distinguishable "bad xref").1,
   (C3_corrupt_outcome_distinguishable "bad xref").2.1 [PdfPage.mk 0],
   (C3_corrupt_outcome_distinguishable "bad xref").2.2 [PdfPage.mk 0]⟩

/-- C6: every successful `merge_pdfs` writes, at the output path, exactly
the cover-sheet pages, then one blank page iff `add_empty_page`, then the
document pages; and every other path — in particular both input files —
is untouched. -/
theorem C6_merge_page_sequence (fs : FS) (cs doc out : String) (b : Bool)
    (w : WriteOutcome) (csPages docPages : List PdfPage) (p : String)
    (h : (merge_pdfs fs cs doc out b w).1 = true)
    (hcs : readPages (fs cs) = some csPages)
    (hdoc : readPages (fs doc) = some docPages)
    (hp : p ≠ out) :
    (merge_pdfs fs cs doc out b w).2 out =
      some (PdfFile.readable
        (csPages ++ (if b then [PdfPage.blankA4] else []) ++ docPages)) ∧
    (merge_pdfs fs cs doc out b w).2 p = fs p := by
  cases w with
  | ok =>
    refine ⟨?_, ?_⟩
    · simp [merge_pdfs, hcs, hdoc, FS.set]
    · simp [merge_pdfs, hcs, hdoc, FS.set, hp]
  | failAfter k =>
    exact absurd h (by simp [merge_pdfs, hcs, hdoc])

theorem C6_merge_page_sequence_witness :
    (merge_pdfs fs_demo "cover.pdf" "doc.pdf" "out.pdf" true
        WriteOutcome.ok).2 "out.pdf" =
      some (PdfFile.readable
        ([PdfPage.mk 0] ++ (if true then [PdfPage.blankA4] else [])
          ++ [PdfPage.mk 1, PdfPage.mk 2])) ∧
    (merge_pdfs fs_demo "cover.pdf" "doc.pdf" "out.pdf" true
        WriteOutcome.ok).2 "cover.pdf" = fs_demo "cover.pdf" :=
  C6_merge_page_sequence fs_demo "cover.pdf" "doc.pdf" "out.pdf" true
    WriteOutcome.ok [PdfPage.mk 0] [PdfPage.mk 1, PdfPage.mk 2] "cover.pdf"
    (by decide) (by decide) (by decide) (by decide)

/-- C8: `price_after_deposit` equals `max 0 (total_price − deposit)` and is
therefore never negative, however small `total_price` is. -/
theorem C8_price_after_deposit_clamped (c : PriceCalculation) :
    c.price_after_deposit = max 0 (c.total_price - c.deposit) ∧
    0 ≤ c.price_after_deposit :=
  ⟨rfl, le_max_left 0 _⟩

theorem C8_price_after_deposit_clamped_witness :
    PriceCalculation.price_after_deposit
        { color_mode := ColorMode.bw, binding_type := BindingType.noBinding,
          binding_size_mm := none, pages_price := 30, binding_price := 0,
          deposit := 100 } =
      max 0 (PriceCalculation.total_price
        { color_mode := ColorMode.bw, binding_type := BindingType.noBinding,
          binding_size_mm := none, pages_price := 30, binding_price := 0,
          deposit := 100 } - 100) ∧
    0 ≤ PriceCalculation.price_after_deposit
        { color_mode := ColorMode.bw, binding_type := BindingType.noBinding,
          binding_size_mm := none, pages_price := 30, binding_price := 0,
          deposit := 100 } :=
  C8_price_after_deposit_clamped
    { color_mode := ColorMode.bw, binding_type := BindingType.noBinding,
      binding_size_mm := none, pages_price := 30, binding_price := 0,
      deposit := 100 }

@[simp] lemma is_image_op_text (s : String) : is_image_op (DrawOp.text s) = false := rfl

@[simp] lemma is_image_op_fieldOp (a b : String) :
    is_image_op (DrawOp.fieldOp a b) = false := rfl

@[simp] lemma is_image_op_sepLine : is_image_op DrawOp.sepLine = false := rfl

@[simp] lemma is_image_op_rect : is_image_op DrawOp.rect = false := rfl

@[simp] lemma is_image_op_image (p : String) : is_image_op (DrawOp.image p) = true := rfl

@[simp] lemma is_image_op_warnBanner (a b c : String) :
    is_image_op (DrawOp.warnBanner a b c) = false := rfl

@[simp] lemma is_warn_banner_text (s : String) :
    is_warn_banner (DrawOp.text s) = false := rfl

@[simp] lemma is_warn_banner_fieldOp (a b : String) :
    is_warn_banner (DrawOp.fieldOp a b) = false := rfl

@[simp] lemma is_warn_banner_sepLine : is_warn_banner DrawOp.sepLine = false := rfl

@[simp] lemma is_warn_banner_rect : is_warn_banner DrawOp.rect = false := rfl

@[simp] lemma is_warn_banner_image (p : String) :
    is_warn_banner (DrawOp.image p) = false := rfl

@[simp] lemma is_warn_banner_warnBanner (a b c : String) :
    is_warn_banner (DrawOp.warnBanner a b c) = true := rfl

/-- The pricing block never contains an image or a warning banner. -/
lemma price_ops_no_image_no_banner (pc : PriceCalculation) :
    has_image_op (price_ops pc) = false ∧ has_warn_banner (price_ops pc) = false := by
  constructor <;> simp [price_ops, has_image_op, has_warn_banner]

/-- Without a thumbnail path, the drawing sequence contains no image op. -/
lemma has_image_op_coversheet_ops_none (o : Order) (dio : Bool) :
    has_image_op (coversheet_ops o none dio) = false := by
  unfold coversheet_ops has_image_op
  cases o.user <;> cases o.page_count <;> cases o.price_calculation <;>
    simp [price_ops, List.any_append]

/-- The warning banner appears in the drawing sequence exactly when the
order status value is the invalid-filename string. -/
lemma has_warn_banner_coversheet_ops (o : Order) (thumb : Option String)
    (dio : Bool) :
    has_warn_banner (coversheet_ops o thumb dio) = true ↔
      o.status.value = "error_invalid_filename" := by
  unfold coversheet_ops has_warn_banner
  cases o.user <;> cases o.page_count <;> cases o.price_calculation <;>
    cases thumb <;> cases dio <;>
      simp [price_ops, thumbnail_ops, List.any_append] <;>
        aesop

/-- Only the invalid-filename status has the invalid-filename value
string. -/
lemma status_value_invalid_iff (s : OrderStatus) :
    s.value = "error_invalid_filename" ↔ s = OrderStatus.error_invalid_filename := by
  cases s <;> decide

/-- C4: whenever directory creation and the drawing/save of the sheet
itself succeed, `create_coversheet` reports success no matter how the
thumbnail stage behaved; and if the thumbnail renderer did not succeed the
sheet is produced without a preview image. -/
theorem C4_thumbnail_failure_degrades_gracefully (o : Order)
    (env : CoversheetEnv) (tmp : String)
    (hm : env.mkdir_ok = true) (hs : env.save_ok = true) :
    (create_coversheet o env tmp).ok = true ∧
    (env.thumb_fault ≠ ThumbFault.ok →
      has_image_op ((create_coversheet o env tmp).output.getD []) = false) := by
  have hthumb : env.thumb_fault ≠ ThumbFault.ok →
      (if env.filepath_exists then
        render_page_thumbnail env.thumb_fault tmp else (none, false)).1 = none := by
    intro hf
    cases env.filepath_exists
    · simp
    · cases henv : env.thumb_fault
      case ok => exact absurd henv hf
      all_goals simp [render_page_thumbnail]
  constructor
  · simp [create_coversheet, hm, hs]
  · intro hf
    simp only [create_coversheet, hm, hs, if_true]
    rw [hthumb hf]
    simp [has_image_op_coversheet_ops_none]

theorem C4_thumbnail_failure_degrades_gracefully_witness :
    (create_coversheet order_demo env_no_fitz_demo "thumb.png").ok = true ∧
    has_image_op ((create_coversheet order_demo env_no_fitz_demo
        "thumb.png").output.getD []) = false :=
  ⟨(C4_thumbnail_failure_degrades_gracefully order_demo env_no_fitz_demo
      "thumb.png" rfl rfl).1,
   (C4_thumbnail_failure_degrades_gracefully order_demo env_no_fitz_demo
      "thumb.png" rfl rfl).2 (by decide)⟩

/-- C5: the claim says no temporary thumbnail file outlives a
`create_coversheet` call, on any path.  But when `pix.save` fails after the
temporary PNG was created with `delete=False`, `_render_page_thumbnail`
catches the exception and returns `None` without unlinking, so the
`finally` cleanup (which only sees the returned path) never deletes it: the
call reports success and the temporary file is still on disk. -/
theorem C5_pix_save_failure_leaks_temp_file :
    (create_coversheet order_demo env_save_fail_demo "thumb_tmp.png").ok = true ∧
    (create_coversheet order_demo env_save_fail_demo
        "thumb_tmp.png").temp_thumbnail_left = true := by
  constructor <;> rfl

/-- C7: the cover sheet carries the red warning banner with the naming
convention exactly for orders whose status marks the filename as invalid. -/
theorem C7_invalid_filename_banner_iff (o : Order) (thumb : Option String)
    (dio : Bool) :
    has_warn_banner (coversheet_ops o thumb dio) = true ↔
      o.status = OrderStatus.error_invalid_filename := by
  rw [has_warn_banner_coversheet_ops, status_value_invalid_iff]

theorem C7_invalid_filename_banner_iff_witness :
    has_warn_banner (coversheet_ops order_invalid_demo none true) = true ∧
    has_warn_banner (coversheet_ops order_demo none true) = false :=
  ⟨(C7_invalid_filename_banner_iff order_invalid_demo none true).mpr rfl,
   by
    have h := C7_invalid_filename_banner_iff order_demo none true
    revert h
    decide⟩

/-- C9 counterexample: the claim says the cover sheet always shows a
non-empty name.  The guard `if order.user:` tests only the presence of the
identity object, not its `full_name`: an order with an attached identity
whose `full_name` is empty gets an empty name on the sheet, even though a
parsed name was available. -/
theorem C9_counterexample_empty_identity_name :
    order_empty_fullname.user.isSome = true ∧
    order_empty_fullname.parsed_name = some "Max Mustermann" ∧
    coversheet_name_text order_empty_fullname = "" :=
  ⟨rfl, rfl, rfl⟩

/-- The literal fallback text is non-empty. -/
lemma unbekannt_nonempty : "Unbekannt".isEmpty = false := by decide

/-- C9 (amended): the displayed name follows the fixed precedence — the
attached identity's `full_name`, else the parsed name when non-empty, else
the parsed username when non-empty, else `"Unbekannt"` — and it is
non-empty provided that any attached identity has a non-empty `full_name`
(the guards on the parsed fields already skip empty strings). -/
theorem C9_name_precedence (o : Order) :
    (∀ u, o.user = some u → coversheet_name_text o = u.full_name) ∧
    (∀ s, o.user = none → o.parsed_name = some s → s.isEmpty = false →
      coversheet_name_text o = s) ∧
    (∀ t, o.user = none → truthyStr o.parsed_name = false →
      o.parsed_username = some t → t.isEmpty = false →
      coversheet_name_text o = t) ∧
    (o.user = none → truthyStr o.parsed_name = false →
      truthyStr o.parsed_username = false →
      coversheet_name_text o = "Unbekannt") ∧
    ((∀ u, o.user = some u → u.full_name.isEmpty = false) →
      (coversheet_name_text o).isEmpty = false) := by
  refine ⟨?_, ?_, ?_, ?_, ?_⟩
  · intro u hu
    simp [coversheet_name_text, hu]
  · intro s hu hs hne
    simp [coversheet_name_text, hu, hs, hne]
  · intro t hu hpn hpu hne
    cases hn : o.parsed_name with
    | none => simp [coversheet_name_text, hu, hn, hpu, hne]
    | some s =>
      have hse : s.isEmpty = true := by
        simp [truthyStr, hn] at hpn
        exact hpn
      simp [coversheet_name_text, hu, hn, hse, hpu, hne]
  · intro hu hpn hpu
    have hname : ∀ r : String,
        (match o.parsed_username with
          | some t => if !t.isEmpty then t else "Unbekannt"
          | none => "Unbekannt") = "Unbekannt" := by
      intro r
      cases hn2 : o.parsed_username with
      | none => rfl
      | some t2 =>
        have ht : t2.isEmpty = true := by
          simp [truthyStr, hn2] at hpu
          exact hpu
        simp [ht]
    cases hn : o.parsed_name with
    | none => simpa [coversheet_name_text, hu, hn] using hname ""
    | some s =>
      have hse : s.isEmpty = true := by
        simp [truthyStr, hn] at hpn
        exact hpn
      simpa [coversheet_name_text, hu, hn, hse] using hname ""
  · intro hfull
    cases hu : o.user with
    | some u =>
      have := hfull u hu
      simpa [coversheet_name_text, hu] using this
    | none =>
      cases hn : o.parsed_name with
      | none =>
        cases hn2 : o.parsed_username with
        | none => simp [coversheet_name_text, hu, hn, hn2, unbekannt_nonempty]
        | some t2 =>
          cases ht : t2.isEmpty <;>
            simp [coversheet_name_text, hu, hn, hn2, ht, unbekannt_nonempty]
      | some s =>
        cases hse : s.isEmpty with
        | false => simp [coversheet_name_text, hu, hn, hse]
        | true =>
          cases hn2 : o.parsed_username with
          | none => simp [coversheet_name_text, hu, hn, hn2, hse, unbekannt_nonempty]
          | some t2 =>
            cases ht : t2.isEmpty <;>
              simp [coversheet_name_text, hu, hn, hn2, hse, ht, unbekannt_nonempty]

theorem C9_name_precedence_witness :
    coversheet_name_text order_demo = "Alice Example" ∧
    coversheet_name_text order_invalid_demo = "Unbekannt" :=
  ⟨(C9_name_precedence order_demo).1
      { username := "ab12345", full_name := "Alice Example",
        faculty := some "M", blocked := false } rfl,
   (C9_name_precedence order_invalid_demo).2.2.2.1 rfl rfl rfl⟩

/-- C10: `setup_logging` first clears every handler of the application
logger, then attaches exactly one console handler and at most one file
handler; the resulting handler list does not depend on the previous state,
so no sequence of calls can ever accumulate duplicates. -/
theorem C10_setup_logging_handler_discipline (st st2 : LoggingState)
    (level : String) (log_file : Option String) (use_rich : Bool) :
    (setup_logging st level log_file use_rich).app.handlers.countP
        is_console_handler = 1 ∧
    (setup_logging st level log_file use_rich).app.handlers.countP
        is_file_handler ≤ 1 ∧
    (setup_logging st level log_file use_rich).app.handlers =
      (setup_logging st2 level log_file use_rich).app.handlers := by
  refine ⟨?_, ?_, rfl⟩ <;>
    cases log_file <;> cases use_rich <;>
      simp [setup_logging, is_console_handler, is_file_handler,
        List.countP_cons, List.countP_nil]

end Skriptendruck
